import Mathlib

/-!
Verification of the OpenImuCameraCalibrator applications against their
specification.  The C++ sources under `src/applications/` are shallowly
embedded below: machine doubles become rationals, `int64_t` nanosecond
timestamps become integers with C-style truncating division, fallible
reads become `Option`/`Except`, and the fatal `CHECK` macro becomes an
`Except.error` exit.  Components of the repository that live outside the
three application files (the kontiki/basalt spline and estimator
headers) are modelled from the specification and are marked as such in
their doc comments.
-/

namespace OpenImuCalib

/-- Rational 3-vectors standing in for `Eigen::Vector3d`. -/
structure V3 where
  x : ℚ
  y : ℚ
  z : ℚ
deriving DecidableEq

/-- Componentwise vector addition. -/
def V3.add (a b : V3) : V3 := ⟨a.x + b.x, a.y + b.y, a.z + b.z⟩

/-- Rational 3x3 matrices standing in for rotation matrices (`Sophus::SO3d`). -/
structure M3 where
  a11 : ℚ
  a12 : ℚ
  a13 : ℚ
  a21 : ℚ
  a22 : ℚ
  a23 : ℚ
  a31 : ℚ
  a32 : ℚ
  a33 : ℚ
deriving DecidableEq

/-- Matrix product, embedding composition of rotations. -/
def M3.mul (A B : M3) : M3 :=
  ⟨A.a11 * B.a11 + A.a12 * B.a21 + A.a13 * B.a31,
   A.a11 * B.a12 + A.a12 * B.a22 + A.a13 * B.a32,
   A.a11 * B.a13 + A.a12 * B.a23 + A.a13 * B.a33,
   A.a21 * B.a11 + A.a22 * B.a21 + A.a23 * B.a31,
   A.a21 * B.a12 + A.a22 * B.a22 + A.a23 * B.a32,
   A.a21 * B.a13 + A.a22 * B.a23 + A.a23 * B.a33,
   A.a31 * B.a11 + A.a32 * B.a21 + A.a33 * B.a31,
   A.a31 * B.a12 + A.a32 * B.a22 + A.a33 * B.a32,
   A.a31 * B.a13 + A.a32 * B.a23 + A.a33 * B.a33⟩

/-- Matrix-vector application, embedding rotation of a vector. -/
def M3.app (A : M3) (v : V3) : V3 :=
  ⟨A.a11 * v.x + A.a12 * v.y + A.a13 * v.z,
   A.a21 * v.x + A.a22 * v.y + A.a23 * v.z,
   A.a31 * v.x + A.a32 * v.y + A.a33 * v.z⟩

/-- Identity rotation. -/
def M3.id : M3 := ⟨1, 0, 0, 0, 1, 0, 0, 0, 1⟩

/-! ## Knot allocation
`continuous_time_imu_to_camera_calibration_new.cc`, lines 109-114 and
177-178.  Times become `int64_t` nanoseconds and the knot counts are
computed with C++ integer division (truncation toward zero, `Int.tdiv`). -/

/-- Spline order `N = 5` (line 114 of the continuous-time application). -/
def splineOrder : ℤ := 5

/-- Number of knots allocated per spline at initialization:
`(end_t_ns - start_t_ns) / dt_so3_ns + N` with C++ `int64_t` division
(lines 177-178). -/
def num_knots (start_t_ns end_t_ns dt_ns : ℤ) : ℤ :=
  Int.tdiv (end_t_ns - start_t_ns) dt_ns + splineOrder

/-- The knot count that the specification's words prescribe:
`ceil((endTime - startTime) / dt) + order`, computed exactly over ℚ. -/
def specCeilKnots (start_t_ns end_t_ns dt_ns : ℤ) : ℤ :=
  ⌈((end_t_ns : ℚ) - (start_t_ns : ℚ)) / (dt_ns : ℚ)⌉ + splineOrder

/-! ## Time window selection
`continuous_time_imu_to_camera_calibration_new.cc`, lines 106-124 and
214-241.  `t0`/`tend` come from `std::minmax_element` over the pose
timestamps; poses and IMU samples are filtered against the window. -/

/-- Smallest pose timestamp, embedding `std::minmax_element` (line 107). -/
def t0_of (timestamps : List ℚ) : ℚ :=
  timestamps.foldl min (timestamps.headD 0)

/-- Largest pose timestamp, embedding `std::minmax_element` (line 108). -/
def tend_of (timestamps : List ℚ) : ℚ :=
  timestamps.foldl max (timestamps.headD 0)

/-- Pose filter of line 123: a pose is skipped (`continue`) when
`timestamp >= tend || timestamp < t0`, so it is kept otherwise. -/
def poseKept (t0 tend timestamp : ℚ) : Bool :=
  !(decide (timestamp ≥ tend) || decide (timestamp < t0))

/-- Time-offset-corrected IMU sample timestamp in nanoseconds
(lines 218-219): `(timestamp_ms[i] / 1000.0 + time_offset_imu_to_cam) * 1e9`. -/
def imuSampleTime (timestamp_ms time_offset : ℚ) : ℚ :=
  (timestamp_ms / 1000 + time_offset) * 1000000000

/-- IMU sample filter of lines 220-221 (same test for the gyroscope at
lines 234-235): a sample is skipped when `t < start_t_ns || t >= end_t_ns`. -/
def imuSampleKept (start_t_ns end_t_ns : ℤ) (t : ℚ) : Bool :=
  !(decide (t < (start_t_ns : ℚ)) || decide (t ≥ (end_t_ns : ℚ)))

/-- Corner-measurement filter of line 198: a corner bundle is registered
when `frame_id >= start_t_ns && frame_id < end_t_ns`. -/
def cornerKept (start_t_ns end_t_ns frame_id : ℤ) : Bool :=
  decide (frame_id ≥ start_t_ns) && decide (frame_id < end_t_ns)

/-! ## Camera model name lookup
`calibrate_camera.cc`, lines 59-67.  The three enum constants of
`theia::CameraIntrinsicsModelType` are external to the repository, so the
function is embedded with them as parameters.  The second and third
branches of the source test the truthiness of the enum constant itself
(`else if ((int)theia::CameraIntrinsicsModelType::DIVISION_UNDISTORTION)`),
not a comparison with the argument; falling off the end of the function
without a return is undefined behaviour, embedded as `none`. -/

/-- Embeds `CameraIDToString`.  `ds`, `divu`, `ph` are the integer values
of the `DOUBLE_SPHERE`, `DIVISION_UNDISTORTION` and `PINHOLE` enum
constants. -/
def CameraIDToString (ds divu ph : ℤ) (theia_enum : ℤ) : Option String :=
  if theia_enum = ds then some ("DOUBLE_SPHERE")
  else if divu ≠ 0 then some ("DIVISION_UNDISTORTION")
  else if ph ≠ 0 then some ("PINHOLE")
  else none

/-! ## Per-view reprojection error
`calibrate_camera.cc`, lines 69-83.  The camera projection and the
pixel-space Euclidean norm involve square roots, which the rationals do
not have, so both are parameters of the embedding; the structure of the
accumulation and the final division are taken from the source. -/

/-- Rational 2-vectors standing in for `Eigen::Vector2d` pixel locations. -/
structure V2 where
  u : ℚ
  v : ℚ
deriving DecidableEq

/-- Pixel-space difference `pt - feat`. -/
def V2.sub (a b : V2) : V2 := ⟨a.u - b.u, a.v - b.v⟩

/-- Homogeneous 3D landmark, standing in for `track->Point()`
(an `Eigen::Vector4d`). -/
structure V4 where
  p1 : ℚ
  p2 : ℚ
  p3 : ℚ
  p4 : ℚ
deriving DecidableEq

/-- IEEE division of an accumulated double by a container size: when the
divisor is zero the C++ quotient is NaN (or infinity), not a real
number, and no exception is raised; this is embedded as `none`. -/
def ieeeDivByCount (a : ℚ) (n : ℕ) : Option ℚ :=
  if n = 0 then none else some (a / n)

/-- One view of the reconstruction as `GetReprojErrorOfView` reads it:
for each track id, the observed feature and the 3D track point. -/
structure RView where
  tracks : List (V2 × V4)

/-- Embeds `GetReprojErrorOfView`: accumulate `(project(point) - feat).norm()`
over the view's tracks, then divide by `track_ids.size()` with no guard
against an empty track set.  `proj` is the camera projection
`v->Camera().ProjectPoint` and `norm2` the pixel-space norm. -/
def GetReprojErrorOfView (proj : V4 → V2) (norm2 : V2 → ℚ) (v : RView) : Option ℚ :=
  ieeeDivByCount ((v.tracks.map fun tr => norm2 (V2.sub (proj tr.2) tr.1)).sum)
    v.tracks.length

/-- The mean of a list of per-corner errors, following the specification's
words (the mean pixel-space reprojection norm of the view). -/
def meanOfList (l : List ℚ) : Option ℚ :=
  if l = [] then none else some (l.sum / l.length)

/-! ## Gravity seeding
`continuous_time_imu_to_camera_calibration_new.cc`, lines 140-171.  The
outer loop walks the pose timestamps; for each one whose pose was kept
in `calib_init_poses` (the `[t0, tend)` window of line 123) the inner
loop scans the accelerometer stream for the first sample whose
nanosecond timestamp is within 3000000 ns of the pose timestamp.  On a
match, `g_a_init = T_a_i.so3() * (acc_masurement[i] + accl_bias)` where
`T_a_i = T_a_c * T_i_c_init.inverse()`. -/

/-- The C++ conversion `(int64_t)(t * 1e9)` of a time in seconds to
nanoseconds: truncation toward zero of the exact product, computed as a
truncating integer division of `t.num * 1e9` by `t.den`. -/
def toNs (t : ℚ) : ℤ := Int.tdiv (t.num * 1000000000) t.den

/-- Inner scan of lines 153-167: the first accelerometer sample (given as
`(timestamp_ms, acc_masurement)` pairs) with
`std::abs(accl_t_ns - timestamp_ns) < 3000000`, where
`accl_t_ns = timestamp_ms[i] * 1e9` truncated to `int64_t`. -/
def findAccelInWindow (accel : List (ℚ × V3)) (timestamp_ns : ℤ) : Option (ℚ × V3) :=
  accel.find? fun s => decide ((toNs s.1 - timestamp_ns).natAbs < 3000000)

/-- Outer loop of lines 143-170.  `poseOri ts` is the orientation
`T_a_c.so3()` of the pose at timestamp `ts` and `R_ic_inv` the rotation of
`T_i_c_init.inverse()`; only timestamps kept by the line-123 window have
an entry in `calib_init_poses`.  Returns the first gravity estimate, or
`none` when no accelerometer sample matches any kept pose. -/
def seedGravity (timestamps : List ℚ) (t0 tend : ℚ) (poseOri : ℚ → M3)
    (R_ic_inv : M3) (accel : List (ℚ × V3)) (accl_bias : V3) : Option V3 :=
  match timestamps with
  | [] => none
  | ts :: rest =>
    if poseKept t0 tend ts then
      match findAccelInWindow accel (toNs ts) with
      | some s => some (((poseOri ts).mul R_ic_inv).app (V3.add s.2 accl_bias))
      | none => seedGravity rest t0 tend poseOri R_ic_inv accel accl_bias
    else seedGravity rest t0 tend poseOri R_ic_inv accel accl_bias

/-- What `setG` receives at line 171: the local `g_a_init`, which on
seeding failure was never written. -/
inductive GravityCell where
  | fromSeed (g : V3)
  | uninitRead
deriving DecidableEq

/-- Line 171 runs `calib_spline.setG(g_a_init)` whether or not the loop
set `g_initialized`; on failure the uninitialized local is read. -/
def installedGravity (seed : Option V3) : GravityCell :=
  match seed with
  | some g => GravityCell.fromSeed g
  | none => GravityCell.uninitRead

/-- The application has no exit path between the gravity loop and
`setG`: the flag `g_initialized` is never re-checked after the loop, so
the program continues unconditionally for every seeding outcome. -/
def gravitySeedingAborts (seed : Option V3) : Bool :=
  match seed with
  | some _ => false
  | none => false

/-! ## External artifact reads
`continuous_time_imu_to_camera_calibration_new.cc`, lines 54-85: each of
the five artifacts is read under a fatal `CHECK`, embedded as
`Except.error`.  `create_imu_camera_charuco.cc`, lines 82-109: the
reconstruction read is a fatal `CHECK`, the detector-parameter read exits
early with `return 0`, but the telemetry read of lines 95-100 only
prints `Could not read` and falls through to the calibration. -/

/-- Telemetry artifact: accelerometer and gyroscope streams as
`(timestamp_ms, sample)` pairs.  A default-constructed
`CameraTelemetryData` has both streams empty. -/
structure Telemetry where
  accel : List (ℚ × V3)
  gyro : List (ℚ × V3)
deriving DecidableEq

/-- Spline error-weighting artifact (`SplineWeightingData`). -/
structure SplineWeightingData where
  dt_so3 : ℚ
  dt_r3 : ℚ
  var_so3 : ℚ
  var_r3 : ℚ
deriving DecidableEq

/-- The five external artifacts of the continuous-time application; a
`none` field is a missing or unreadable file. -/
structure CtArtifacts where
  imu_bias : Option (V3 × V3)
  reconstruction : Option (List ℚ)
  telemetry : Option Telemetry
  imu2cam_init : Option (M3 × ℚ)
  sew : Option SplineWeightingData

/-- A fatal `CHECK(read(...)) << msg`: error out with the message when
the read failed. -/
def require {α : Type} (o : Option α) (msg : String) : Except String α :=
  match o with
  | some a => Except.ok a
  | none => Except.error msg

/-- Artifact phase of the continuous-time `main` (lines 54-85), in source
order; the calibration only runs on the returned values. -/
def ctReadPhase (art : CtArtifacts) :
    Except String ((V3 × V3) × List ℚ × Telemetry × (M3 × ℚ) × SplineWeightingData) := do
  let bias ← require art.imu_bias ("Could not open imu bias file")
  let recon ← require art.reconstruction ("Could not read Reconstruction file.")
  let tel ← require art.telemetry ("Could not read gopro telemetry")
  let ini ← require art.imu2cam_init ("Could not read gyro to cam calibration")
  let sew ← require art.sew ("Could not open spline error weighting")
  return (bias, recon, tel, ini, sew)

/-- The external artifacts of the charuco application. -/
structure CharucoArtifacts where
  reconstruction : Option (List ℚ)
  telemetry : Option Telemetry
  detector_params : Option Unit

/-- Outcome of the charuco application's artifact phase. -/
inductive CharucoOutcome where
  | aborted (msg : String)
  | stoppedEarly (msg : String)
  | proceeds (telemetry : Telemetry)
deriving DecidableEq

/-- Artifact phase of the charuco `main` (lines 82-109): the
reconstruction `CHECK` aborts, a failed telemetry read only logs and
leaves `telemetry_data` default-constructed, the detector-parameter
failure returns early. -/
def charucoReadPhase (art : CharucoArtifacts) : CharucoOutcome :=
  match art.reconstruction with
  | none => CharucoOutcome.aborted ("Could not read Reconstruction file.")
  | some _ =>
    let tel := art.telemetry.getD ⟨[], []⟩
    match art.detector_params with
    | none => CharucoOutcome.stoppedEarly ("Invalid detector parameters file")
    | some _ => CharucoOutcome.proceeds tel

/-! ## Joint estimator registration
`create_imu_camera_charuco.cc` lines 316-331 registers measurements one
at a time; `continuous_time_imu_to_camera_calibration_new.cc` lines
196-241 does the same for corners, accelerometer and gyroscope samples.
The estimator itself (`kontiki::TrajectoryEstimator` /
`CeresCalibrationSplineSplit`) lives in headers outside `src/`. -/

/-- Measurement, following §3 of the specification: a tagged union of
the three kinds, immutable once constructed. -/
inductive Measurement where
  | reprojection (t : ℚ) (track : ℕ) (pixel : V2) (weight : ℚ)
  | gyroscope (t : ℚ) (w : V3) (weight : ℚ)
  | accelerometer (t : ℚ) (a : V3) (weight : ℚ)
deriving DecidableEq

/-- Modelled from the spec: the estimator owns the measurements
registered for one optimization run (`TrajectoryEstimator` is not under
`src/`). -/
structure Estimator where
  measurements : List Measurement
deriving DecidableEq

/-- Modelled from the spec: `AddMeasurement(m)` registers one residual
against the shared calibration state. -/
def AddMeasurement (e : Estimator) (m : Measurement) : Estimator :=
  ⟨e.measurements ++ [m]⟩

/-- Registration of a whole batch, in the order the application loops
emit the `AddMeasurement` calls. -/
def registerAll (e : Estimator) (ms : List Measurement) : Estimator :=
  ms.foldl AddMeasurement e

/-- Modelled from the spec: `Optimize` minimizes the sum of weighted
squared residuals over the registered measurements; `residualCost m s`
is the weighted squared residual of `m` at calibration state `s`. -/
def totalCost (S : Type) (residualCost : Measurement → S → ℚ)
    (e : Estimator) (s : S) : ℚ :=
  (e.measurements.map fun m => residualCost m s).sum

/-- Modelled from the spec: a deterministic solver returns the optimized
state as a function of the total-cost map alone. -/
def Solve (S : Type) (residualCost : Measurement → S → ℚ)
    (solver : (S → ℚ) → S) (e : Estimator) : S :=
  solver (totalCost S residualCost e)

/-! ## Knot store extension
`create_imu_camera_charuco.cc` lines 310-311 and 333-336 call
`ExtendTo(time, defaultValue)` on the R3 and SO3 splines; the
implementation lives in the kontiki headers outside `src/`. -/

/-- Kernel-computable ceiling of a positive rational. -/
def ratCeilPos (q : ℚ) : ℤ := Int.tdiv (q.num + (q.den : ℤ) - 1) (q.den : ℤ)

/-- Modelled from the spec: the knot store of one uniform spline —
uniformly spaced control values starting at `t0` with spacing `dt`
(§4.1), stored as an append-only ordered sequence (§9). -/
structure USpline (V : Type) where
  t0 : ℚ
  dt : ℚ
  knots : List V

/-- Modelled from the spec: the minimum number of knots such that the
domain `[t0, t0 + (n - order + 1) * dt]` of an order-5 uniform B-spline
covers `time`. -/
def requiredKnots (t0 dt time : ℚ) : ℕ :=
  if time ≤ t0 then 5 else 5 + (ratCeilPos ((time - t0) / dt)).toNat

/-- Modelled from the spec: `ExtendTo(time, defaultValue)` appends knots
until the domain covers `time`; existing knots are never modified. -/
def USpline.ExtendTo {V : Type} (s : USpline V) (time : ℚ) (dflt : V) : USpline V :=
  { s with knots :=
      s.knots ++ List.replicate (requiredKnots s.t0 s.dt time - s.knots.length) dflt }

/-! ## Locked landmarks
`create_imu_camera_charuco.cc` lines 243-282 builds the kontiki
landmarks: a track observed by at least two kept views becomes a
landmark whose point is set from the track and which is immediately
locked (`Lock(true)`).  `calibrate_camera.cc` lines 401-411 configures
bundle adjustment with `fix_tracks = true`.  The estimator's treatment
of locked parameters lives outside `src/` and is modelled from the
specification. -/

/-- A kontiki landmark: 3D point and lock flag. -/
structure KLandmark where
  point : V4
  locked : Bool
deriving DecidableEq

/-- A reconstruction track as the charuco application reads it: its 3D
point and the ids of the views observing it. -/
structure RTrack where
  point : V4
  observers : List ℕ

/-- The landmark-building loop of lines 243-282: a track whose observer
count among the kept views is at least 2 yields one landmark,
`set_point`-ed from the track and locked at construction. -/
def buildKontikiLandmarks (tracks : List RTrack) (keptViews : List ℕ) : List KLandmark :=
  tracks.filterMap fun tr =>
    if 2 ≤ (tr.observers.filter fun v => keptViews.contains v).length
    then some ⟨tr.point, true⟩ else none

/-- Operations the pipeline performs after landmark construction. -/
inductive EstOp where
  | addMeasurement (m : Measurement)
  | optimize (update : V4 → V4)
  | diagnostics
deriving Inhabited

/-- Joint state of landmarks and registered measurements. -/
structure PipeState where
  landmarks : List KLandmark
  registered : List Measurement

/-- Modelled from the spec: measurement registration only records a
residual (src line 328), optimization re-estimates free parameters but
treats locked landmarks as known (spec §3: the landmark set is locked,
not re-estimated), and the reprojection diagnostic is read-only
(spec §4.4). -/
def applyOp (st : PipeState) : EstOp → PipeState
  | EstOp.addMeasurement m => { st with registered := st.registered ++ [m] }
  | EstOp.optimize upd =>
      { st with landmarks := st.landmarks.map fun l =>
          if l.locked then l else { l with point := upd l.point } }
  | EstOp.diagnostics => st

/-- A whole pipeline run: the operations applied in order. -/
def runOps (st : PipeState) (ops : List EstOp) : PipeState :=
  ops.foldl applyOp st

/-- Bundle-adjustment options as configured at
`calibrate_camera.cc` lines 401-405. -/
structure BundleAdjustmentOptions where
  fix_tracks : Bool
  verbose : Bool
  robust_loss_width : ℚ
deriving DecidableEq

/-- The options record built at lines 401-405: `fix_tracks = true`,
`verbose = true`, `robust_loss_width = 1.345`. -/
def ba_options : BundleAdjustmentOptions :=
  ⟨true, true, 1345 / 1000⟩

end OpenImuCalib

namespace OpenImuCalib

/-! ## Helper lemmas -/

theorem foldl_min_le_init (l : List ℚ) (a : ℚ) : l.foldl min a ≤ a := by
  induction l generalizing a with
  | nil => simp
  | cons h t ih => exact le_trans (ih (min a h)) (min_le_left a h)

theorem foldl_min_le_mem (l : List ℚ) (a x : ℚ) (hx : x ∈ l) : l.foldl min a ≤ x := by
  induction l generalizing a with
  | nil => cases hx
  | cons h t ih =>
    rcases List.mem_cons.mp hx with rfl | hx'
    · exact le_trans (foldl_min_le_init t (min a x)) (min_le_right a x)
    · exact ih (min a h) hx'

theorem foldl_min_mem_or (l : List ℚ) (a : ℚ) :
    l.foldl min a = a ∨ l.foldl min a ∈ l := by
  induction l generalizing a with
  | nil => left; rfl
  | cons h t ih =>
    rcases ih (min a h) with heq | hmem
    · rw [List.foldl_cons, heq]
      rcases min_choice a h with h1 | h1
      · left; exact h1
      · right; rw [h1]; exact List.mem_cons_self h t
    · right; exact List.mem_cons_of_mem h hmem

theorem foldl_max_init_le (l : List ℚ) (a : ℚ) : a ≤ l.foldl max a := by
  induction l generalizing a with
  | nil => simp
  | cons h t ih => exact le_trans (le_max_left a h) (ih (max a h))

theorem foldl_max_mem_le (l : List ℚ) (a x : ℚ) (hx : x ∈ l) : x ≤ l.foldl max a := by
  induction l generalizing a with
  | nil => cases hx
  | cons h t ih =>
    rcases List.mem_cons.mp hx with rfl | hx'
    · exact le_trans (le_max_right a x) (foldl_max_init_le t (max a x))
    · exact ih (max a h) hx'

theorem foldl_max_mem_or (l : List ℚ) (a : ℚ) :
    l.foldl max a = a ∨ l.foldl max a ∈ l := by
  induction l generalizing a with
  | nil => left; rfl
  | cons h t ih =>
    rcases ih (max a h) with heq | hmem
    · rw [List.foldl_cons, heq]
      rcases max_choice a h with h1 | h1
      · left; exact h1
      · right; rw [h1]; exact List.mem_cons_self h t
    · right; exact List.mem_cons_of_mem h hmem

theorem floor_intCast_div_pos (a b : ℤ) (hb : 0 < b) :
    ⌊(a : ℚ) / (b : ℚ)⌋ = a / b := by
  obtain ⟨n, rfl⟩ : ∃ n : ℕ, b = (n : ℤ) := ⟨b.toNat, (Int.toNat_of_nonneg hb.le).symm⟩
  exact_mod_cast Rat.floor_intCast_div_natCast a n

/-! ## Claim theorems -/

/-- C1 (amended): the number of knots allocated per spline equals the
truncating integer division `floor((tend - t0) / dt) + order` for a
nonnegative window and positive spacing; not the ceiling in general. -/
theorem num_knots_is_floor_plus_order (s e d : ℤ) (hse : s ≤ e) (hd : 0 < d) :
    num_knots s e d = ⌊((e : ℚ) - (s : ℚ)) / (d : ℚ)⌋ + splineOrder := by
  unfold num_knots
  rw [Int.tdiv_eq_ediv (sub_nonneg.mpr hse) hd.le]
  rw [show ((e : ℚ) - (s : ℚ)) = ((e - s : ℤ) : ℚ) by push_cast; ring]
  rw [floor_intCast_div_pos (e - s) d hd]

/-- C1 witness: for the specification's own scenario (5-second window,
0.1-second spacing in nanoseconds) the hypotheses hold and the formula
gives the advertised 55 knots. -/
theorem num_knots_is_floor_plus_order_witness :
    num_knots 0 5000000000 100000000 =
      ⌊((5000000000 : ℚ) - (0 : ℚ)) / (100000000 : ℚ)⌋ + splineOrder ∧
    num_knots 0 5000000000 100000000 = 55 :=
  ⟨num_knots_is_floor_plus_order 0 5000000000 100000000 (by decide) (by decide),
   by decide⟩

/-- C1 counterexample: for a 5.05-second window with 0.1-second spacing
the code allocates 55 knots while `ceil((tend - t0)/dt) + order = 56`,
so the claimed ceiling formula is false. -/
theorem num_knots_ceil_counterexample :
    num_knots 0 5050000000 100000000 = 55 ∧
    specCeilKnots 0 5050000000 100000000 = 56 ∧
    num_knots 0 5050000000 100000000 ≠ specCeilKnots 0 5050000000 100000000 := by
  refine ⟨by decide, ?_, ?_⟩
  · unfold specCeilKnots splineOrder
    rw [show (56 : ℤ) = 51 + 5 by norm_num]
    congr 1
    norm_num
    rw [Int.ceil_eq_iff]
    constructor <;> norm_num
  · intro hcontra
    have h1 : num_knots 0 5050000000 100000000 = 55 := by decide
    have h2 : specCeilKnots 0 5050000000 100000000 = 56 := by
      unfold specCeilKnots splineOrder
      rw [show (56 : ℤ) = 51 + 5 by norm_num]
      congr 1
      norm_num
      rw [Int.ceil_eq_iff]
      constructor <;> norm_num
    rw [h1, h2] at hcontra
    exact absurd hcontra (by decide)

/-- C3 (amended): `t0` is the minimum and `tend` the maximum pose
timestamp, and poses, IMU samples and corner bundles are kept exactly
when their timestamp lies in the half-open window `[t0, tend)`: the
upper-end comparisons are strict, so a timestamp exactly `tend` is
discarded. -/
theorem timeWindow_selection (l : List ℚ) (h : l ≠ []) (t0 tend ts : ℚ)
    (s e f : ℤ) (t : ℚ) :
    (t0_of l ∈ l ∧ ∀ x ∈ l, t0_of l ≤ x) ∧
    (tend_of l ∈ l ∧ ∀ x ∈ l, x ≤ tend_of l) ∧
    (poseKept t0 tend ts = true ↔ t0 ≤ ts ∧ ts < tend) ∧
    (imuSampleKept s e t = true ↔ (s : ℚ) ≤ t ∧ t < (e : ℚ)) ∧
    (cornerKept s e f = true ↔ s ≤ f ∧ f < e) := by
  obtain ⟨hd, tl, rfl⟩ : ∃ hd tl, l = hd :: tl := by
    cases l with
    | nil => exact absurd rfl h
    | cons hd tl => exact ⟨hd, tl, rfl⟩
  refine ⟨⟨?_, ?_⟩, ⟨?_, ?_⟩, ?_, ?_, ?_⟩
  · rcases foldl_min_mem_or (hd :: tl) ((hd :: tl).headD 0) with heq | hmem
    · rw [t0_of, heq]; exact List.mem_cons_self hd tl
    · exact hmem
  · exact fun x hx => foldl_min_le_mem (hd :: tl) hd x hx
  · rcases foldl_max_mem_or (hd :: tl) ((hd :: tl).headD 0) with heq | hmem
    · rw [tend_of, heq]; exact List.mem_cons_self hd tl
    · exact hmem
  · exact fun x hx => foldl_max_mem_le (hd :: tl) hd x hx
  · simp only [poseKept, Bool.not_eq_true', Bool.or_eq_false_iff,
      decide_eq_false_iff_not, not_le, not_lt, ge_iff_le]
    exact and_comm
  · simp only [imuSampleKept, Bool.not_eq_true', Bool.or_eq_false_iff,
      decide_eq_false_iff_not, not_le, not_lt, ge_iff_le]
  · simp only [cornerKept, Bool.and_eq_true, decide_eq_true_eq, ge_iff_le]

/-- C3 witness: the amended window semantics instantiated on a concrete
one-pose timestamp list and concrete window bounds. -/
theorem timeWindow_selection_witness :
    (t0_of [0] ∈ [(0 : ℚ)] ∧ ∀ x ∈ [(0 : ℚ)], t0_of [0] ≤ x) ∧
    (tend_of [0] ∈ [(0 : ℚ)] ∧ ∀ x ∈ [(0 : ℚ)], x ≤ tend_of [0]) ∧
    (poseKept 0 1 0 = true ↔ (0 : ℚ) ≤ 0 ∧ (0 : ℚ) < 1) ∧
    (imuSampleKept 0 1 0 = true ↔ ((0 : ℤ) : ℚ) ≤ 0 ∧ (0 : ℚ) < ((1 : ℤ) : ℚ)) ∧
    (cornerKept 0 1 0 = true ↔ (0 : ℤ) ≤ 0 ∧ (0 : ℤ) < 1) :=
  timeWindow_selection [0] (by decide) 0 1 0 0 1 0 0

/-- C3 counterexample: with pose timestamps 0 and 1 the code selects
`t0 = 0`, `tend = 1`, yet the pose at exactly `tend` is discarded
(`poseKept = false`), and so is an IMU sample landing exactly on
`end_t_ns`; the claim said both are retained. -/
theorem closed_interval_counterexample :
    t0_of [0, 1] = 0 ∧ tend_of [0, 1] = 1 ∧
    poseKept (t0_of [0, 1]) (tend_of [0, 1]) 1 = false ∧
    imuSampleKept 0 1000000000 1000000000 = false := by
  decide

/-- C9: with a nonzero `DIVISION_UNDISTORTION` enum value,
`CameraIDToString` answers `DOUBLE_SPHERE` exactly on the
`DOUBLE_SPHERE` value, answers `DIVISION_UNDISTORTION` on every other
input, and in particular never answers `PINHOLE` on the `PINHOLE`
value. -/
theorem CameraIDToString_spec (ds divu ph x : ℤ) (hdiv : divu ≠ 0) :
    (CameraIDToString ds divu ph x = some ("DOUBLE_SPHERE") ↔ x = ds) ∧
    (x ≠ ds → CameraIDToString ds divu ph x = some ("DIVISION_UNDISTORTION")) ∧
    CameraIDToString ds divu ph ph ≠ some ("PINHOLE") := by
  refine ⟨?_, ?_, ?_⟩
  · by_cases hx : x = ds <;> simp [CameraIDToString, hx, hdiv]
  · intro hx; simp [CameraIDToString, hx, hdiv]
  · by_cases hp : ph = ds <;> simp [CameraIDToString, hp, hdiv]

/-- C9 witness: the theorem instantiated at the actual theia enum values
(`PINHOLE = 0`, `DIVISION_UNDISTORTION = 4`, `DOUBLE_SPHERE = 5`) and
the `PINHOLE` input. -/
theorem CameraIDToString_spec_witness :
    (CameraIDToString 5 4 0 0 = some ("DOUBLE_SPHERE") ↔ (0 : ℤ) = 5) ∧
    ((0 : ℤ) ≠ 5 → CameraIDToString 5 4 0 0 = some ("DIVISION_UNDISTORTION")) ∧
    CameraIDToString 5 4 0 0 ≠ some ("PINHOLE") :=
  CameraIDToString_spec 5 4 0 0 (by decide)

/-- C10: `GetReprojErrorOfView` returns the mean per-corner reprojection
norm of the view, and on a view with no tracks the unguarded division by
`track_ids.size()` yields no real number (NaN, embedded as `none`) while
raising no error. -/
theorem GetReprojErrorOfView_mean_or_none (proj : V4 → V2) (norm2 : V2 → ℚ)
    (v : RView) :
    GetReprojErrorOfView proj norm2 v =
      meanOfList (v.tracks.map fun tr => norm2 (V2.sub (proj tr.2) tr.1)) ∧
    (v.tracks = [] → GetReprojErrorOfView proj norm2 v = none) := by
  rcases v with ⟨tracks⟩
  constructor
  · cases tracks with
    | nil => simp [GetReprojErrorOfView, meanOfList, ieeeDivByCount]
    | cons a t =>
      simp [GetReprojErrorOfView, meanOfList, ieeeDivByCount]
  · intro h
    simp only at h
    subst h
    simp [GetReprojErrorOfView, ieeeDivByCount]

/-- C10 witness: a concrete empty view for which the function returns
`none`, via the theorem. -/
theorem GetReprojErrorOfView_mean_or_none_witness :
    GetReprojErrorOfView (fun _ => ⟨0, 0⟩) (fun _ => 0) ⟨[]⟩ = none :=
  (GetReprojErrorOfView_mean_or_none (fun _ => ⟨0, 0⟩) (fun _ => 0) ⟨[]⟩).2 rfl

/-- C2: with pose timestamps 0 and 1 (window `[0, 1)`, poses at identity)
and a single accelerometer sample two seconds away from every kept
pose, gravity seeding fails (`none`); yet the embedded control flow
never aborts on that outcome and `setG` at line 171 is reached reading
the uninitialized local `g_a_init`. -/
theorem gravity_failure_silently_continues :
    seedGravity [0, 1] 0 1 (fun _ => M3.id) M3.id
      [((2 : ℚ), ⟨1, 2, 3⟩)] ⟨0, 0, 0⟩ = none ∧
    gravitySeedingAborts (seedGravity [0, 1] 0 1 (fun _ => M3.id) M3.id
      [((2 : ℚ), ⟨1, 2, 3⟩)] ⟨0, 0, 0⟩) = false ∧
    installedGravity (seedGravity [0, 1] 0 1 (fun _ => M3.id) M3.id
      [((2 : ℚ), ⟨1, 2, 3⟩)] ⟨0, 0, 0⟩) = GravityCell.uninitRead := by
  decide

/-- C4 (amended): when seeding succeeds, the gravity estimate is the
matched accelerometer sample plus the accelerometer bias (not the raw
sample), rotated by the matching pose's orientation composed with the
inverse initial IMU-to-camera rotation. -/
theorem seedGravity_rotates_biased_sample (timestamps : List ℚ) (t0 tend : ℚ)
    (poseOri : ℚ → M3) (R_ic_inv : M3) (accel : List (ℚ × V3)) (b g : V3)
    (hg : seedGravity timestamps t0 tend poseOri R_ic_inv accel b = some g) :
    ∃ ts ∈ timestamps, poseKept t0 tend ts = true ∧
      ∃ s ∈ accel,
        (toNs s.1 - toNs ts).natAbs < 3000000 ∧
        g = ((poseOri ts).mul R_ic_inv).app (V3.add s.2 b) := by
  induction timestamps with
  | nil => simp [seedGravity] at hg
  | cons ts rest ih =>
    rw [seedGravity] at hg
    by_cases hk : poseKept t0 tend ts = true
    · rw [if_pos hk] at hg
      cases hfind : findAccelInWindow accel (toNs ts) with
      | some s =>
        rw [hfind] at hg
        injection hg with hg'
        refine ⟨ts, List.mem_cons_self ts rest, hk, s, ?_, ?_, hg'.symm⟩
        · exact List.mem_of_find?_eq_some hfind
        · have hp := List.find?_some hfind
          simpa using hp
      | none =>
        rw [hfind] at hg
        obtain ⟨ts', hts', rest'⟩ := ih hg
        exact ⟨ts', List.mem_cons_of_mem ts hts', rest'⟩
    · rw [if_neg hk] at hg
      obtain ⟨ts', hts', rest'⟩ := ih hg
      exact ⟨ts', List.mem_cons_of_mem ts hts', rest'⟩

/-- C4 witness: a pose at time 0 with identity orientation, one
accelerometer sample at time 0 with value (1,0,0) and bias (0,0,1);
seeding succeeds with the biased, rotated sample. -/
theorem seedGravity_rotates_biased_sample_witness :
    ∃ ts ∈ [(0 : ℚ)], poseKept 0 1 ts = true ∧
      ∃ s ∈ [((0 : ℚ), (⟨1, 0, 0⟩ : V3))],
        (toNs s.1 - toNs ts).natAbs < 3000000 ∧
        (M3.id.mul M3.id).app (V3.add ⟨1, 0, 0⟩ ⟨0, 0, 1⟩) =
          (M3.id.mul M3.id).app (V3.add s.2 ⟨0, 0, 1⟩) :=
  seedGravity_rotates_biased_sample [0] 0 1 (fun _ => M3.id) M3.id
    [((0 : ℚ), ⟨1, 0, 0⟩)] ⟨0, 0, 1⟩
    ((M3.id.mul M3.id).app (V3.add ⟨1, 0, 0⟩ ⟨0, 0, 1⟩)) rfl

/-- C4 counterexample: with identity rotations, sample (1,0,0) and bias
(0,0,1) the installed estimate is the rotated biased sample (1,0,1),
which differs from the raw sample (1,0,0) rotated by the same composed
rotation; the gravity seed is not the rotated raw reading. -/
theorem seedGravity_raw_sample_counterexample :
    seedGravity [0] 0 1 (fun _ => M3.id) M3.id
      [((0 : ℚ), ⟨1, 0, 0⟩)] ⟨0, 0, 1⟩ =
      some ((M3.id.mul M3.id).app (V3.add ⟨1, 0, 0⟩ ⟨0, 0, 1⟩)) ∧
    (M3.id.mul M3.id).app (V3.add ⟨1, 0, 0⟩ ⟨0, 0, 1⟩) = ⟨1, 0, 1⟩ ∧
    (M3.id.mul M3.id).app ⟨1, 0, 0⟩ = ⟨1, 0, 0⟩ ∧
    (⟨1, 0, 1⟩ : V3) ≠ ⟨1, 0, 0⟩ := by
  refine ⟨rfl, ?_, ?_, ?_⟩
  · simp [M3.mul, M3.app, M3.id, V3.add]
  · simp [M3.mul, M3.app, M3.id]
  · intro h
    injection h with h1 h2 h3
    exact absurd h3 (by norm_num)

/-- C5: every failed artifact read of the continuous-time application
(bias, reconstruction, telemetry, rough alignment, error weighting) is
fatal — the embedded read phase returns an error and no value; but the
charuco application's telemetry read failure merely logs and proceeds
to the calibration with a default-constructed telemetry object. -/
theorem artifact_read_failures (art : CtArtifacts)
    (h : art.imu_bias = none ∨ art.reconstruction = none ∨ art.telemetry = none ∨
         art.imu2cam_init = none ∨ art.sew = none) :
    (∃ msg, ctReadPhase art = Except.error msg) ∧
    charucoReadPhase ⟨some [], none, some ()⟩ = CharucoOutcome.proceeds ⟨[], []⟩ := by
  refine ⟨?_, rfl⟩
  rcases art with ⟨b, r, t, i, s⟩
  rcases b with _ | b <;> rcases r with _ | r <;> rcases t with _ | t <;>
    rcases i with _ | i <;> rcases s with _ | s <;>
    first
      | exact ⟨_, rfl⟩
      | simp at h

/-- C5 witness: the theorem applied to a run with every artifact
missing. -/
theorem artifact_read_failures_witness :
    (∃ msg, ctReadPhase ⟨none, none, none, none, none⟩ = Except.error msg) ∧
    charucoReadPhase ⟨some [], none, some ()⟩ = CharucoOutcome.proceeds ⟨[], []⟩ :=
  artifact_read_failures ⟨none, none, none, none, none⟩ (Or.inl rfl)

theorem registerAll_measurements (e : Estimator) (ms : List Measurement) :
    (registerAll e ms).measurements = e.measurements ++ ms := by
  induction ms generalizing e with
  | nil => simp [registerAll]
  | cons m rest ih =>
    show (registerAll (AddMeasurement e m) rest).measurements = _
    rw [ih (AddMeasurement e m)]
    simp [AddMeasurement]

/-- C6: the optimized state is invariant under the order in which the
measurements are registered — any permutation of the `AddMeasurement`
calls leaves the total-cost map, and hence the solver's output,
unchanged. -/
theorem AddMeasurement_order_invariant (S : Type) (rc : Measurement → S → ℚ)
    (solver : (S → ℚ) → S) (e : Estimator) (ms₁ ms₂ : List Measurement)
    (hperm : ms₁.Perm ms₂) :
    Solve S rc solver (registerAll e ms₁) = Solve S rc solver (registerAll e ms₂) := by
  unfold Solve
  congr 1
  funext s
  unfold totalCost
  rw [registerAll_measurements, registerAll_measurements]
  exact List.Perm.sum_eq (List.Perm.map _ (List.Perm.append_left e.measurements hperm))

/-- C6 witness: swapping the registration order of one gyroscope and one
accelerometer measurement yields the same optimized state. -/
theorem AddMeasurement_order_invariant_witness :
    Solve ℚ (fun _ _ => 0) (fun f => f 0)
      (registerAll ⟨[]⟩ [Measurement.gyroscope 0 ⟨0, 0, 0⟩ 1,
                         Measurement.accelerometer 0 ⟨0, 0, 0⟩ 1]) =
    Solve ℚ (fun _ _ => 0) (fun f => f 0)
      (registerAll ⟨[]⟩ [Measurement.accelerometer 0 ⟨0, 0, 0⟩ 1,
                         Measurement.gyroscope 0 ⟨0, 0, 0⟩ 1]) :=
  AddMeasurement_order_invariant ℚ (fun _ _ => 0) (fun f => f 0) ⟨[]⟩
    [Measurement.gyroscope 0 ⟨0, 0, 0⟩ 1, Measurement.accelerometer 0 ⟨0, 0, 0⟩ 1]
    [Measurement.accelerometer 0 ⟨0, 0, 0⟩ 1, Measurement.gyroscope 0 ⟨0, 0, 0⟩ 1]
    (List.Perm.swap (Measurement.accelerometer 0 ⟨0, 0, 0⟩ 1)
      (Measurement.gyroscope 0 ⟨0, 0, 0⟩ 1) [])

theorem ExtendTo_of_le {V : Type} (s : USpline V) (time : ℚ) (d : V)
    (h : requiredKnots s.t0 s.dt time ≤ s.knots.length) :
    s.ExtendTo time d = s := by
  unfold USpline.ExtendTo
  rw [Nat.sub_eq_zero_of_le h, List.replicate_zero, List.append_nil]

theorem ExtendTo_covers (V : Type) (s : USpline V) (time : ℚ) (d : V) :
    requiredKnots s.t0 s.dt time ≤ (s.ExtendTo time d).knots.length := by
  unfold USpline.ExtendTo
  simp only [List.length_append, List.length_replicate]
  omega

/-- C7: `ExtendTo` is idempotent — repeating the call with the same
target time returns the very same knot store, so in particular the knot
count is unchanged and every pose evaluation over the store is
unchanged. -/
theorem ExtendTo_idempotent (V : Type) (s : USpline V) (time : ℚ) (d : V) :
    (s.ExtendTo time d).ExtendTo time d = s.ExtendTo time d ∧
    ((s.ExtendTo time d).ExtendTo time d).knots.length =
      (s.ExtendTo time d).knots.length ∧
    ∀ (evalPose : USpline V → ℚ → V) (t : ℚ),
      evalPose ((s.ExtendTo time d).ExtendTo time d) t =
        evalPose (s.ExtendTo time d) t := by
  have hmain : (s.ExtendTo time d).ExtendTo time d = s.ExtendTo time d :=
    ExtendTo_of_le (s.ExtendTo time d) time d (ExtendTo_covers V s time d)
  exact ⟨hmain, by rw [hmain], fun ev t => by rw [hmain]⟩

theorem map_locked_id (ls : List KLandmark) (upd : V4 → V4)
    (h : ∀ l ∈ ls, l.locked = true) :
    (ls.map fun l => if l.locked then l else { l with point := upd l.point }) = ls := by
  induction ls with
  | nil => rfl
  | cons a t ih =>
    rw [List.map_cons, if_pos (h a (List.mem_cons_self a t)),
      ih fun l hl => h l (List.mem_cons_of_mem a hl)]

theorem runOps_preserves_landmarks (ops : List EstOp) (st : PipeState)
    (hlock : ∀ l ∈ st.landmarks, l.locked = true) :
    (runOps st ops).landmarks = st.landmarks := by
  induction ops generalizing st with
  | nil => rfl
  | cons op rest ih =>
    have hpres : (applyOp st op).landmarks = st.landmarks := by
      cases op with
      | addMeasurement m => rfl
      | diagnostics => rfl
      | optimize upd => exact map_locked_id st.landmarks upd hlock
    show (runOps (applyOp st op) rest).landmarks = st.landmarks
    rw [ih (applyOp st op) (by rw [hpres]; exact hlock), hpres]

/-- C8: every landmark built by the charuco application is locked at
construction; a pipeline whose landmarks are all locked leaves every
landmark position unchanged under any sequence of measurement
registrations, optimizations and diagnostics; and the camera-calibration
bundle adjustment fixes the tracks. -/
theorem landmarks_locked_invariant (tracks : List RTrack) (keptViews : List ℕ)
    (st : PipeState) (hlock : ∀ l ∈ st.landmarks, l.locked = true)
    (ops : List EstOp) :
    (∀ l ∈ buildKontikiLandmarks tracks keptViews, l.locked = true) ∧
    (runOps st ops).landmarks = st.landmarks ∧
    ba_options.fix_tracks = true := by
  refine ⟨?_, runOps_preserves_landmarks ops st hlock, rfl⟩
  intro l hl
  rw [buildKontikiLandmarks, List.mem_filterMap] at hl
  obtain ⟨tr, _, htr⟩ := hl
  by_cases hc : 2 ≤ (tr.observers.filter fun v => keptViews.contains v).length
  · rw [if_pos hc] at htr
    injection htr with heq
    rw [← heq]
  · rw [if_neg hc] at htr
    cases htr

/-- C8 witness: one track observed by two kept views, a state holding
its locked landmark, and a run with one registration, one optimization
and one diagnostic. -/
theorem landmarks_locked_invariant_witness :
    (∀ l ∈ buildKontikiLandmarks [⟨⟨0, 0, 0, 1⟩, [1, 2]⟩] [1, 2], l.locked = true) ∧
    (runOps ⟨[⟨⟨0, 0, 0, 1⟩, true⟩], []⟩
        [EstOp.addMeasurement (Measurement.gyroscope 0 ⟨0, 0, 0⟩ 1),
         EstOp.optimize (fun _ => ⟨7, 7, 7, 7⟩),
         EstOp.diagnostics]).landmarks =
      (⟨[⟨⟨0, 0, 0, 1⟩, true⟩], []⟩ : PipeState).landmarks ∧
    ba_options.fix_tracks = true :=
  landmarks_locked_invariant [⟨⟨0, 0, 0, 1⟩, [1, 2]⟩] [1, 2]
    ⟨[⟨⟨0, 0, 0, 1⟩, true⟩], []⟩ (by decide)
    [EstOp.addMeasurement (Measurement.gyroscope 0 ⟨0, 0, 0⟩ 1),
     EstOp.optimize (fun _ => ⟨7, 7, 7, 7⟩),
     EstOp.diagnostics]

end OpenImuCalib
